/-
Verification of the role-resolution and
API-authorization core against its specification.

The embedding below is a shallow model of:
  - prisma/schema.prisma        (data model: User, Event, EventUser, Notification)
  - src/lib/auth.tsx            (two client variants of checkUserRole /
                                 createUserRecordIfNotExists)
  - the express server routes   (authenticateToken, isAdmin middleware,
                                 event CRUD, approve/reject, join/leave,
                                 user update, registration)

Database queries are modelled as pure functions over explicit record lists;
fault injection (table missing / transient errors) is an explicit parameter,
mirroring the error codes the client code branches on (42P01, PGRST116).
-/
import Mathlib

namespace Portal

/-- Role enum from prisma/schema.prisma. -/
inductive Role
  | USER
  | ADMIN
  | MODERATOR
deriving DecidableEq, Repr

/-- EventStatus enum from prisma/schema.prisma. -/
inductive EventStatus
  | PENDING
  | APPROVED
  | REJECTED
  | CANCELLED
deriving DecidableEq, Repr

/-- A row of the User table (timestamps omitted; they carry no logic). -/
structure UserRec where
  id : String
  email : String
  name : Option String
  password : Option String
  avatar : Option String
  role : Role
deriving DecidableEq, Repr

/-- A row of the Event table. `date` is an abstract timestamp. -/
structure EventRec where
  id : String
  title : String
  description : String
  content : Option String
  date : Nat
  location : String
  image : Option String
  userId : String
  status : EventStatus
  clubId : Option String
deriving DecidableEq, Repr

/-- A row of the EventUser join table (membership edge). -/
structure EventUserRec where
  eventId : String
  userId : String
  status : String
deriving DecidableEq, Repr

/-- A row of the Notification table. -/
structure NotificationRec where
  userId : String
  message : String
  type : String
  read : Bool
deriving DecidableEq, Repr

/-- The relational store, as explicit lists of rows. -/
structure DB where
  users : List UserRec
  events : List EventRec
  eventUsers : List EventUserRec
  notifications : List NotificationRec
deriving DecidableEq, Repr

/-- Lookup of a User row by id (prisma findUnique / supabase eq-id). -/
def findUser (users : List UserRec) (uid : String) : Option UserRec :=
  users.find? (fun u => u.id == uid)

/-- Lookup of a User row by unique email. -/
def findUserByEmail (users : List UserRec) (email : String) : Option UserRec :=
  users.find? (fun u => u.email == email)

/-- Lookup of an Event row by id. -/
def findEvent (events : List EventRec) (eid : String) : Option EventRec :=
  events.find? (fun e => e.id == eid)

/-- Lookup of an EventUser edge by its unique (eventId, userId) pair. -/
def findEventUser (edges : List EventUserRec) (eid uid : String) : Option EventUserRec :=
  edges.find? (fun j => j.eventId == eid && j.userId == uid)

/- ------------------------------------------------------------------
   Client-side role resolution (src/lib/auth.tsx).
   ------------------------------------------------------------------ -/

/-- The supabase session user visible to the auth provider:
subject id, email, and the user/app metadata fields the code reads. -/
structure SessionUser where
  id : String
  email : Option String
  nameMeta : Option String
  avatarMeta : Option String
  appMetaRole : Option String
deriving DecidableEq, Repr

/-- Fault injection for one supabase query: the query succeeds, or fails
with PostgreSQL 42P01 (relation does not exist), or with some other error. -/
inductive DbFault
  | noFault
  | tableMissing
  | otherError
deriving DecidableEq, Repr

/-- Error outcomes of `select role ... single()`: 42P01, PGRST116 (no rows),
or any other error. -/
inductive LookupErr
  | tableMissing
  | noRows
  | otherErr
deriving DecidableEq, Repr

/-- Model of the select-role-by-id single-row query: a fault yields its
error; otherwise a found row yields its role and an absent row yields
the no-rows error PGRST116. -/
def selectRole (f : DbFault) (users : List UserRec) (uid : String) :
    Except LookupErr Role :=
  match f with
  | .tableMissing => .error .tableMissing
  | .otherError => .error .otherErr
  | .noFault =>
    match findUser users uid with
    | some u => .ok u.role
    | none => .error .noRows

/-- Model of splitting the email on the at-sign and taking component 0:
the characters before the first at-sign (the whole string when absent). -/
def localPart (email : String) : String :=
  String.mk (email.toList.takeWhile (fun c => c ≠ '@'))

/-- Name defaulting with JavaScript truthiness: an undefined or empty
name falls back to the email local part. -/
def resolveName (nameMeta : Option String) (email : String) : String :=
  match nameMeta with
  | some n => if n = "" then localPart email else n
  | none => localPart email

/-- Model of createUserRecordIfNotExists from the first auth.tsx variant:
upsert on conflict id with payload id, email, name, role USER.
An existing row is updated with the payload columns; an absent row is
inserted (password and avatar not in the payload). -/
def upsertUserV1 (users : List UserRec) (uid email : String)
    (nameMeta : Option String) : List UserRec :=
  match findUser users uid with
  | some _ =>
    users.map (fun u =>
      if u.id == uid then
        { u with email := email, name := some (resolveName nameMeta email),
                 role := Role.USER }
      else u)
  | none =>
    { id := uid, email := email, name := some (resolveName nameMeta email),
      password := none, avatar := none, role := Role.USER } :: users

/-- Model of createUserRecordIfNotExists from the second auth.tsx variant:
same upsert, with the avatar from user_metadata additionally in the payload. -/
def upsertUserV2 (users : List UserRec) (uid email : String)
    (nameMeta avatarMeta : Option String) : List UserRec :=
  match findUser users uid with
  | some _ =>
    users.map (fun u =>
      if u.id == uid then
        { u with email := email, name := some (resolveName nameMeta email),
                 role := Role.USER, avatar := avatarMeta }
      else u)
  | none =>
    { id := uid, email := email, name := some (resolveName nameMeta email),
      password := none, avatar := avatarMeta, role := Role.USER } :: users

/-- Model of checkUserRole from the FIRST auth.tsx variant.
Inputs: the user state of the provider, the userId argument, the User table,
the fault of the first select, whether the upsert call fails, and the fault
of the re-fetch select. Output: the resulting `isAdmin` flag and the
resulting User table. -/
def checkUserRole1 (user : Option SessionUser) (userId : Option String)
    (users : List UserRec) (f1 : DbFault) (upsertFails : Bool) (f2 : DbFault) :
    Bool × List UserRec :=
  match userId with
  | none => (false, users)
  | some uid =>
    match selectRole f1 users uid with
    | .ok r => (r == Role.ADMIN, users)
    | .error .tableMissing => (false, users)
    | .error .noRows =>
      match user with
      | some su =>
        match su.email with
        | some e =>
          if e = "" then (false, users)
          else if upsertFails then (false, users)
          else
            let users' := upsertUserV1 users uid e su.nameMeta
            match selectRole f2 users' uid with
            | .ok r => (r == Role.ADMIN, users')
            | .error _ => (false, users')
        | none => (false, users)
      | none => (false, users)
    | .error .otherErr =>
      -- thrown, caught by the outer catch: isAdmin := false, then an
      -- attempted create whose own failure is swallowed
      match user with
      | some su =>
        match su.email with
        | some e =>
          if e = "" then (false, users)
          else if upsertFails then (false, users)
          else (false, upsertUserV1 users uid e su.nameMeta)
        | none => (false, users)
      | none => (false, users)

/-- Model of checkUserRole from the SECOND auth.tsx variant: on any select
error it first consults whether app_metadata.role equals ADMIN and, if it
matches, grants admin; only otherwise does it fall to the PGRST116
create-and-refetch path or to the non-admin default. -/
def checkUserRole2 (user : Option SessionUser) (userId : Option String)
    (users : List UserRec) (f1 : DbFault) (upsertFails : Bool) (f2 : DbFault) :
    Bool × List UserRec :=
  match userId with
  | none => (false, users)
  | some uid =>
    match selectRole f1 users uid with
    | .ok r => (r == Role.ADMIN, users)
    | .error e =>
      if (match user with
          | some su => su.appMetaRole == some "ADMIN"
          | none => false) then
        (true, users)
      else
        match e with
        | .noRows =>
          if upsertFails then (false, users)
          else
            let email := (match user with
              | some su => su.email.getD ""
              | none => "")
            let users' := upsertUserV2 users uid email
              (user.bind (fun su => su.nameMeta))
              (user.bind (fun su => su.avatarMeta))
            match selectRole f2 users' uid with
            | .ok r => (r == Role.ADMIN, users')
            | .error _ => (false, users')
        | _ => (false, users)

/- ------------------------------------------------------------------
   Server-side middleware and routes (the express server file).
   ------------------------------------------------------------------ -/

/-- The payload decoded from a JWT: subject id and whatever role claim the
token carries (not necessarily the stored role). -/
structure JwtPayload where
  id : String
  role : Option String
deriving DecidableEq, Repr

/-- Outcome of the authenticateToken middleware. -/
inductive AuthOutcome
  | noToken
  | invalidToken
  | authed (p : JwtPayload)
deriving DecidableEq, Repr

/-- The HTTP status the middleware responds with when it rejects. -/
def AuthOutcome.status : AuthOutcome → Option Nat
  | .noToken => some 401
  | .invalidToken => some 403
  | .authed _ => none

/-- Extraction of the bearer token: component 1 of the header split on
spaces, with JavaScript truthiness — a missing second component or an
empty string is no token. -/
def tokenFromHeader (h : String) : Option String :=
  match (h.toList.splitOn ' ').get? 1 with
  | some ts => if ts.isEmpty then none else some (String.mk ts)
  | none => none

/-- Model of authenticateToken: 401 when no token is present, 403 when
verification throws (invalid or expired), otherwise the request carries
the decoded payload. The verify argument abstracts jwt.verify against the
secret; none models a throw. -/
def authenticateToken (verify : String → Option JwtPayload)
    (header : Option String) : AuthOutcome :=
  match header with
  | none => .noToken
  | some h =>
    match tokenFromHeader h with
    | none => .noToken
    | some t =>
      match verify t with
      | some p => .authed p
      | none => .invalidToken

/-- Model of the isAdmin middleware: looks up the STORED user row for
the authenticated id and requires its role to be ADMIN. -/
def dbIsAdmin (db : DB) (uid : String) : Bool :=
  match findUser db.users uid with
  | some u => u.role == Role.ADMIN
  | none => false

/-- Body of the event-update route; none models an absent (undefined)
field, which prisma skips. -/
structure EventUpdate where
  title : Option String
  description : Option String
  content : Option String
  date : Option Nat
  location : Option String
  image : Option String
deriving DecidableEq, Repr

/-- Data of the prisma event update: provided fields replace the old ones,
absent fields are kept; the date is spread only when truthy. -/
def applyEventUpdate (ev : EventRec) (upd : EventUpdate) : EventRec :=
  { ev with
    title := upd.title.getD ev.title
    description := upd.description.getD ev.description
    content := match upd.content with
      | some c => some c
      | none => ev.content
    date := upd.date.getD ev.date
    location := upd.location.getD ev.location
    image := match upd.image with
      | some i => some i
      | none => ev.image }

inductive UpdateEventResult
  | notFound
  | forbidden
  | ok (e : EventRec)
deriving DecidableEq, Repr

def UpdateEventResult.status : UpdateEventResult → Nat
  | .notFound => 404
  | .forbidden => 403
  | .ok _ => 200

/-- Model of PUT /api/events/:id — 404 if absent; 403 unless the requester
is the creator or the TOKEN role claim is ADMIN; otherwise update the row. -/
def updateEventRoute (db : DB) (actor : JwtPayload) (eid : String)
    (upd : EventUpdate) : UpdateEventResult × DB :=
  match findEvent db.events eid with
  | none => (.notFound, db)
  | some ev =>
    if ev.userId ≠ actor.id ∧ actor.role ≠ some "ADMIN" then
      (.forbidden, db)
    else
      let ev' := applyEventUpdate ev upd
      (.ok ev',
       { db with events := db.events.map (fun e => if e.id == eid then ev' else e) })

inductive DeleteEventResult
  | notFound
  | forbidden
  | deleted
deriving DecidableEq, Repr

def DeleteEventResult.status : DeleteEventResult → Nat
  | .notFound => 404
  | .forbidden => 403
  | .deleted => 204

/-- Model of DELETE /api/events/:id — same authorization as update;
deleting the row cascades to its EventUser edges (schema cascade). -/
def deleteEventRoute (db : DB) (actor : JwtPayload) (eid : String) :
    DeleteEventResult × DB :=
  match findEvent db.events eid with
  | none => (.notFound, db)
  | some ev =>
    if ev.userId ≠ actor.id ∧ actor.role ≠ some "ADMIN" then
      (.forbidden, db)
    else
      (.deleted,
       { db with
         events := db.events.filter (fun e => ¬ e.id == eid)
         eventUsers := db.eventUsers.filter (fun j => ¬ j.eventId == eid) })

inductive ModerateResult
  | forbidden
  | serverError
  | ok (e : EventRec)
deriving DecidableEq, Repr

def ModerateResult.status : ModerateResult → Nat
  | .forbidden => 403
  | .serverError => 500
  | .ok _ => 200

/-- Model of POST /api/events/:id/approve behind the isAdmin middleware:
sets status APPROVED unconditionally (an absent event makes the prisma
update throw, caught as a 500), then creates one Notification of type
success addressed to the creator of the event. -/
def approveRoute (db : DB) (actor : JwtPayload) (eid : String) :
    ModerateResult × DB :=
  if ¬ dbIsAdmin db actor.id then (.forbidden, db)
  else
    match findEvent db.events eid with
    | none => (.serverError, db)
    | some ev =>
      let ev' := { ev with status := EventStatus.APPROVED }
      let notif : NotificationRec :=
        { userId := ev'.userId
          message := "Your event \"" ++ ev'.title ++ "\" has been approved."
          type := "success"
          read := false }
      (.ok ev',
       { db with
         events := db.events.map (fun e => if e.id == eid then ev' else e)
         notifications := notif :: db.notifications })

/-- Model of POST /api/events/:id/reject — identical shape, status
REJECTED and a Notification of type error. -/
def rejectRoute (db : DB) (actor : JwtPayload) (eid : String) :
    ModerateResult × DB :=
  if ¬ dbIsAdmin db actor.id then (.forbidden, db)
  else
    match findEvent db.events eid with
    | none => (.serverError, db)
    | some ev =>
      let ev' := { ev with status := EventStatus.REJECTED }
      let notif : NotificationRec :=
        { userId := ev'.userId
          message := "Your event \"" ++ ev'.title ++ "\" has been rejected."
          type := "error"
          read := false }
      (.ok ev',
       { db with
         events := db.events.map (fun e => if e.id == eid then ev' else e)
         notifications := notif :: db.notifications })

inductive JoinResult
  | notFound
  | notApproved
  | alreadyJoined
  | joined
deriving DecidableEq, Repr

def JoinResult.status : JoinResult → Nat
  | .notFound => 404
  | .notApproved => 400
  | .alreadyJoined => 400
  | .joined => 201

/-- Model of POST /api/events/:id/join — 404 if the event is absent, 400
if it is not APPROVED, 400 if an edge already exists, otherwise create
the edge. -/
def joinRoute (db : DB) (uid eid : String) : JoinResult × DB :=
  match findEvent db.events eid with
  | none => (.notFound, db)
  | some ev =>
    if ev.status ≠ EventStatus.APPROVED then (.notApproved, db)
    else
      match findEventUser db.eventUsers eid uid with
      | some _ => (.alreadyJoined, db)
      | none =>
        (.joined,
         { db with eventUsers :=
             { eventId := eid, userId := uid, status := "attending" } :: db.eventUsers })

inductive LeaveResult
  | notJoined
  | left
deriving DecidableEq, Repr

def LeaveResult.status : LeaveResult → Nat
  | .notJoined => 404
  | .left => 204

/-- Model of DELETE /api/events/:id/join — 404 if no edge exists,
otherwise delete the (eventId, userId) edge. -/
def leaveRoute (db : DB) (uid eid : String) : LeaveResult × DB :=
  match findEventUser db.eventUsers eid uid with
  | none => (.notJoined, db)
  | some _ =>
    (.left,
     { db with eventUsers :=
         db.eventUsers.filter (fun j => ¬ (j.eventId == eid && j.userId == uid)) })

inductive UpdateUserResult
  | forbiddenRole
  | forbiddenProfile
  | serverError
  | ok (u : UserRec)
deriving DecidableEq, Repr

def UpdateUserResult.status : UpdateUserResult → Nat
  | .forbiddenRole => 403
  | .forbiddenProfile => 403
  | .serverError => 500
  | .ok _ => 200

/-- Model of PUT /api/users/:id — both guards read the role claim
DECODED FROM THE TOKEN, not the stored row; a role in the body needs a
token-ADMIN, and a foreign profile needs a token-ADMIN; an absent target
makes the prisma update throw (500). -/
def updateUserRoute (db : DB) (actor : JwtPayload) (uid : String)
    (nameBody : Option String) (roleBody : Option Role) :
    UpdateUserResult × DB :=
  if roleBody.isSome ∧ actor.role ≠ some "ADMIN" then (.forbiddenRole, db)
  else if uid ≠ actor.id ∧ actor.role ≠ some "ADMIN" then (.forbiddenProfile, db)
  else
    match findUser db.users uid with
    | none => (.serverError, db)
    | some u =>
      let u' := { u with
        name := match nameBody with
          | some n => some n
          | none => u.name
        role := roleBody.getD u.role }
      (.ok u',
       { db with users := db.users.map (fun v => if v.id == uid then u' else v) })

/- ------------------------------------------------------------------
   Registration endpoint (the standalone auth server file).
   ------------------------------------------------------------------ -/

/-- JSON serialization of a full User row as key/value pairs
(none values are null fields). -/
def userFields (u : UserRec) : List (String × Option String) :=
  [("id", some u.id),
   ("email", some u.email),
   ("name", u.name),
   ("password", u.password),
   ("avatar", u.avatar),
   ("role", some (match u.role with
     | Role.USER => "USER"
     | Role.ADMIN => "ADMIN"
     | Role.MODERATOR => "MODERATOR"))]

/-- Rest-destructuring that drops exactly the password key. -/
def withoutPassword (fields : List (String × Option String)) :
    List (String × Option String) :=
  fields.filter (fun kv => ¬ kv.1 == "password")

inductive RegisterResult
  | emailExists
  | created (body : List (String × Option String))
deriving DecidableEq, Repr

def RegisterResult.status : RegisterResult → Nat
  | .emailExists => 400
  | .created _ => 201

/-- Model of POST /api/auth/register — 400 when the email exists;
otherwise create the user with the password stored verbatim and role USER,
and respond 201 with every field of the new user except the password. The
newId argument abstracts the cuid the store generates. -/
def registerRoute (db : DB) (name email password newId : String) :
    RegisterResult × DB :=
  match findUserByEmail db.users email with
  | some _ => (.emailExists, db)
  | none =>
    let newUser : UserRec :=
      { id := newId, email := email, name := some name,
        password := some password, avatar := none, role := Role.USER }
    (.created (withoutPassword (userFields newUser)),
     { db with users := newUser :: db.users })

/-- No two User rows share an id (the primary key of the schema). -/
def uniqueIds (users : List UserRec) : Prop :=
  (users.map (fun u => u.id)).Nodup

instance (users : List UserRec) : Decidable (uniqueIds users) := by
  unfold uniqueIds; infer_instance

/-- One role-resolution call, by either auth.tsx variant, with its
session inputs and fault injections. -/
inductive RoleCall
  | v1 (su : Option SessionUser) (uid : Option String) (f1 : DbFault)
       (uf : Bool) (f2 : DbFault)
  | v2 (su : Option SessionUser) (uid : Option String) (f1 : DbFault)
       (uf : Bool) (f2 : DbFault)

/-- The effect of one role-resolution call on the User table. -/
def stepRoleCall (c : RoleCall) (users : List UserRec) : List UserRec :=
  match c with
  | .v1 su uid f1 uf f2 => (checkUserRole1 su uid users f1 uf f2).2
  | .v2 su uid f1 uf f2 => (checkUserRole2 su uid users f1 uf f2).2

/- ------------------------------------------------------------------
   Shared helper lemmas.
   ------------------------------------------------------------------ -/

theorem findUser_cons_self (u : UserRec) (users : List UserRec) :
    findUser (u :: users) u.id = some u := by
  simp [findUser, List.find?_cons_of_pos]

theorem selectRole_ok_elim {f : DbFault} {users : List UserRec} {uid : String}
    {r : Role} (h : selectRole f users uid = Except.ok r) :
    f = DbFault.noFault ∧ ∃ u, findUser users uid = some u ∧ u.role = r := by
  cases f with
  | tableMissing => simp [selectRole] at h
  | otherError => simp [selectRole] at h
  | noFault =>
    refine ⟨rfl, ?_⟩
    cases hf : findUser users uid with
    | none => simp [selectRole, hf] at h
    | some u =>
      simp [selectRole, hf] at h
      exact ⟨u, rfl, h⟩

theorem selectRole_noRows_elim {f : DbFault} {users : List UserRec}
    {uid : String} (h : selectRole f users uid = Except.error LookupErr.noRows) :
    f = DbFault.noFault ∧ findUser users uid = none := by
  cases f with
  | tableMissing => simp [selectRole] at h
  | otherError => simp [selectRole] at h
  | noFault =>
    refine ⟨rfl, ?_⟩
    cases hf : findUser users uid with
    | none => rfl
    | some u => simp [selectRole, hf] at h

theorem upsertV1_insert (users : List UserRec) (uid e : String)
    (nm : Option String) (h : findUser users uid = none) :
    upsertUserV1 users uid e nm
      = { id := uid, email := e, name := some (resolveName nm e),
          password := none, avatar := none, role := Role.USER } :: users := by
  simp [upsertUserV1, h]

theorem upsertV2_insert (users : List UserRec) (uid e : String)
    (nm av : Option String) (h : findUser users uid = none) :
    upsertUserV2 users uid e nm av
      = { id := uid, email := e, name := some (resolveName nm e),
          password := none, avatar := av, role := Role.USER } :: users := by
  simp [upsertUserV2, h]

/- ------------------------------------------------------------------
   Claims.
   ------------------------------------------------------------------ -/

/-- C1 counterexample: in the second `checkUserRole` variant, a
role-resolution attempt whose lookup fails with a non-PGRST116 error
nevertheless grants admin when the app_metadata role of the session user
equals ADMIN — with an empty User table, so no stored
record supports the privilege. This contradicts the claim that every
failure path resolves to non-admin. -/
theorem c1_counterexample :
    selectRole .otherError [] "u1" = Except.error LookupErr.otherErr
    ∧ (checkUserRole2
        (some { id := "u1", email := some "u1@campus.edu", nameMeta := none,
                avatarMeta := none, appMetaRole := some "ADMIN" })
        (some "u1") [] .otherError false .noFault).1 = true := by
  exact ⟨rfl, rfl⟩

/-- C1 amended: the first checkUserRole variant is fail-closed — it
resolves admin only when the lookup succeeded and the stored role
is ADMIN; the second variant is fail-closed except for its app_metadata
fallback — it resolves admin only from a successful lookup of a stored
ADMIN record, or from a session user whose app_metadata role claims
ADMIN. -/
theorem c1_fail_closed_amended
    (su : Option SessionUser) (uid : Option String) (users : List UserRec)
    (f1 : DbFault) (uf : Bool) (f2 : DbFault) :
    ((checkUserRole1 su uid users f1 uf f2).1 = true →
       f1 = DbFault.noFault ∧ ∃ i u, uid = some i ∧
         findUser users i = some u ∧ u.role = Role.ADMIN)
    ∧ ((checkUserRole2 su uid users f1 uf f2).1 = true →
       (f1 = DbFault.noFault ∧ ∃ i u, uid = some i ∧
          findUser users i = some u ∧ u.role = Role.ADMIN)
       ∨ (∃ s, su = some s ∧ s.appMetaRole = some "ADMIN")) := by
  constructor
  · intro h
    cases uid with
    | none => simp [checkUserRole1] at h
    | some i =>
      cases hs1 : selectRole f1 users i with
      | ok r =>
        simp [checkUserRole1, hs1] at h
        obtain ⟨hf, u, hu, hr⟩ := selectRole_ok_elim hs1
        exact ⟨hf, i, u, rfl, hu, by rw [hr, h]⟩
      | error err =>
        cases err with
        | tableMissing => simp [checkUserRole1, hs1] at h
        | otherErr =>
          cases su with
          | none => simp [checkUserRole1, hs1] at h
          | some s =>
            cases hse : s.email with
            | none => simp [checkUserRole1, hs1, hse] at h
            | some e =>
              by_cases he : e = ""
              · simp [checkUserRole1, hs1, hse, he] at h
              · cases uf with
                | true => simp [checkUserRole1, hs1, hse, he] at h
                | false => simp [checkUserRole1, hs1, hse, he] at h
        | noRows =>
          obtain ⟨hf1, habs⟩ := selectRole_noRows_elim hs1
          cases su with
          | none => simp [checkUserRole1, hs1] at h
          | some s =>
            cases hse : s.email with
            | none => simp [checkUserRole1, hs1, hse] at h
            | some e =>
              by_cases he : e = ""
              · simp [checkUserRole1, hs1, hse, he] at h
              · cases uf with
                | true => simp [checkUserRole1, hs1, hse, he] at h
                | false =>
                  cases hs2 : selectRole f2 (upsertUserV1 users i e s.nameMeta) i with
                  | ok r =>
                    simp [checkUserRole1, hs1, hse, he, hs2] at h
                    obtain ⟨hf2, u, hu, hr⟩ := selectRole_ok_elim hs2
                    rw [upsertV1_insert users i e s.nameMeta habs,
                        findUser_cons_self] at hu
                    simp at hu
                    rw [h] at hr
                    rw [← hu] at hr
                    simp at hr
                  | error e2 => simp [checkUserRole1, hs1, hse, he, hs2] at h
  · intro h
    cases uid with
    | none => simp [checkUserRole2] at h
    | some i =>
      cases hs1 : selectRole f1 users i with
      | ok r =>
        simp [checkUserRole2, hs1] at h
        obtain ⟨hf, u, hu, hr⟩ := selectRole_ok_elim hs1
        exact Or.inl ⟨hf, i, u, rfl, hu, by rw [hr, h]⟩
      | error err =>
        cases su with
        | none =>
          cases err with
          | tableMissing => simp [checkUserRole2, hs1] at h
          | otherErr => simp [checkUserRole2, hs1] at h
          | noRows =>
            obtain ⟨hf1, habs⟩ := selectRole_noRows_elim hs1
            cases uf with
            | true => simp [checkUserRole2, hs1] at h
            | false =>
              cases hs2 : selectRole f2 (upsertUserV2 users i "" none none) i with
              | ok r =>
                simp [checkUserRole2, hs1, hs2] at h
                obtain ⟨hf2, u, hu, hr⟩ := selectRole_ok_elim hs2
                rw [upsertV2_insert users i "" none none habs,
                    findUser_cons_self] at hu
                simp at hu
                rw [h] at hr
                rw [← hu] at hr
                simp at hr
              | error e2 => simp [checkUserRole2, hs1, hs2] at h
        | some s =>
          by_cases hm : s.appMetaRole = some "ADMIN"
          · exact Or.inr ⟨s, rfl, hm⟩
          · cases err with
            | tableMissing => simp [checkUserRole2, hs1, hm] at h
            | otherErr => simp [checkUserRole2, hs1, hm] at h
            | noRows =>
              obtain ⟨hf1, habs⟩ := selectRole_noRows_elim hs1
              cases uf with
              | true => simp [checkUserRole2, hs1, hm] at h
              | false =>
                cases hs2 : selectRole f2
                    (upsertUserV2 users i (s.email.getD "") s.nameMeta s.avatarMeta) i with
                | ok r =>
                  simp [checkUserRole2, hs1, hm, hs2] at h
                  obtain ⟨hf2, u, hu, hr⟩ := selectRole_ok_elim hs2
                  rw [upsertV2_insert users i (s.email.getD "") s.nameMeta
                        s.avatarMeta habs,
                      findUser_cons_self] at hu
                  simp at hu
                  rw [h] at hr
                  rw [← hu] at hr
                  simp at hr
                | error e2 => simp [checkUserRole2, hs1, hm, hs2] at h

/-- Witness for the amended C1: when the stored record IS an admin
and the lookup succeeds, the first variant grants admin, and the theorem
pins the grant to that stored record. -/
theorem c1_fail_closed_amended_witness :
    DbFault.noFault = DbFault.noFault ∧ ∃ i u, some "a1" = some i ∧
      findUser [{ id := "a1", email := "a@campus.edu", name := none,
                  password := none, avatar := none, role := Role.ADMIN }] i = some u ∧
      u.role = Role.ADMIN :=
  (c1_fail_closed_amended none (some "a1")
    [{ id := "a1", email := "a@campus.edu", name := none,
       password := none, avatar := none, role := Role.ADMIN }]
    .noFault false .noFault).1 (by decide)

/-- C2: for a subject id with no DirectoryRecord, the first checkUserRole
call creates exactly one record, with role USER (never ADMIN) and name
defaulting to the email local part when no name is supplied, and resolves
the subject as non-admin. -/
theorem c2_first_resolution_creates_user_record
    (su : SessionUser) (uid e : String) (users : List UserRec)
    (hemail : su.email = some e) (hne : e ≠ "")
    (habsent : findUser users uid = none) :
    checkUserRole1 (some su) (some uid) users .noFault false .noFault
      = (false,
         { id := uid, email := e, name := some (resolveName su.nameMeta e),
           password := none, avatar := none, role := Role.USER } :: users)
    ∧ (su.nameMeta = none → resolveName su.nameMeta e = localPart e) := by
  constructor
  · have hsel1 : selectRole .noFault users uid = .error .noRows := by
      simp [selectRole, habsent]
    have hup : upsertUserV1 users uid e su.nameMeta
        = { id := uid, email := e, name := some (resolveName su.nameMeta e),
            password := none, avatar := none, role := Role.USER } :: users := by
      simp [upsertUserV1, habsent]
    have hsel2 : selectRole .noFault
        ({ id := uid, email := e, name := some (resolveName su.nameMeta e),
           password := none, avatar := none, role := Role.USER } :: users) uid
        = .ok Role.USER := by
      have := findUser_cons_self
        { id := uid, email := e, name := some (resolveName su.nameMeta e),
          password := none, avatar := none, role := Role.USER } users
      simp [selectRole, this]
    simp [checkUserRole1, hsel1, hemail, hne, hup, hsel2]
  · intro h
    simp [resolveName, h]

theorem uniqueIds_upsertV1 (users : List UserRec) (uid e : String)
    (nm : Option String) (h : uniqueIds users) :
    uniqueIds (upsertUserV1 users uid e nm) := by
  unfold upsertUserV1
  cases hf : findUser users uid with
  | some u =>
    have hids : ((users.map (fun u =>
        if u.id == uid then
          { u with email := e, name := some (resolveName nm e),
                   role := Role.USER }
        else u)).map (fun u => u.id)) = users.map (fun u => u.id) := by
      rw [List.map_map]
      refine List.map_congr_left ?_
      intro u _
      by_cases hu : u.id = uid <;> simp [hu]
    unfold uniqueIds
    rw [hids]
    exact h
  | none =>
    unfold uniqueIds
    simp only [List.map_cons, List.nodup_cons]
    refine ⟨?_, h⟩
    intro hmem
    obtain ⟨u, hu, hid⟩ := List.mem_map.mp hmem
    have := List.find?_eq_none.mp hf u hu
    simp [hid] at this

theorem uniqueIds_upsertV2 (users : List UserRec) (uid e : String)
    (nm av : Option String) (h : uniqueIds users) :
    uniqueIds (upsertUserV2 users uid e nm av) := by
  unfold upsertUserV2
  cases hf : findUser users uid with
  | some u =>
    have hids : ((users.map (fun u =>
        if u.id == uid then
          { u with email := e, name := some (resolveName nm e),
                   role := Role.USER, avatar := av }
        else u)).map (fun u => u.id)) = users.map (fun u => u.id) := by
      rw [List.map_map]
      refine List.map_congr_left ?_
      intro u _
      by_cases hu : u.id = uid <;> simp [hu]
    unfold uniqueIds
    rw [hids]
    exact h
  | none =>
    unfold uniqueIds
    simp only [List.map_cons, List.nodup_cons]
    refine ⟨?_, h⟩
    intro hmem
    obtain ⟨u, hu, hid⟩ := List.mem_map.mp hmem
    have := List.find?_eq_none.mp hf u hu
    simp [hid] at this

theorem upsertV1_length (users : List UserRec) (uid e : String)
    (nm : Option String) :
    (upsertUserV1 users uid e nm).length ≤ users.length + 1 := by
  unfold upsertUserV1
  cases findUser users uid <;> simp

theorem upsertV2_length (users : List UserRec) (uid e : String)
    (nm av : Option String) :
    (upsertUserV2 users uid e nm av).length ≤ users.length + 1 := by
  unfold upsertUserV2
  cases findUser users uid <;> simp

/-- The User-table component of a checkUserRole call (first variant) is
either untouched or the result of one upsert. -/
theorem checkUserRole1_users_cases (su : Option SessionUser)
    (uid : Option String) (users : List UserRec) (f1 : DbFault) (uf : Bool)
    (f2 : DbFault) :
    (checkUserRole1 su uid users f1 uf f2).2 = users ∨
      ∃ i e nm, (checkUserRole1 su uid users f1 uf f2).2
        = upsertUserV1 users i e nm := by
  unfold checkUserRole1
  dsimp only
  repeat' split
  all_goals first
    | exact Or.inl rfl
    | exact Or.inr ⟨_, _, _, rfl⟩

/-- Same for the second variant. -/
theorem checkUserRole2_users_cases (su : Option SessionUser)
    (uid : Option String) (users : List UserRec) (f1 : DbFault) (uf : Bool)
    (f2 : DbFault) :
    (checkUserRole2 su uid users f1 uf f2).2 = users ∨
      ∃ i e nm av, (checkUserRole2 su uid users f1 uf f2).2
        = upsertUserV2 users i e nm av := by
  unfold checkUserRole2
  dsimp only
  repeat' split
  all_goals first
    | exact Or.inl rfl
    | exact Or.inr ⟨_, _, _, _, rfl⟩

theorem uniqueIds_stepRoleCall (c : RoleCall) (users : List UserRec)
    (h : uniqueIds users) : uniqueIds (stepRoleCall c users) := by
  cases c with
  | v1 su uid f1 uf f2 =>
    rcases checkUserRole1_users_cases su uid users f1 uf f2 with heq | ⟨i, e, nm, heq⟩ <;>
      rw [stepRoleCall, heq]
    · exact h
    · exact uniqueIds_upsertV1 users i e nm h
  | v2 su uid f1 uf f2 =>
    rcases checkUserRole2_users_cases su uid users f1 uf f2 with heq | ⟨i, e, nm, av, heq⟩ <;>
      rw [stepRoleCall, heq]
    · exact h
    · exact uniqueIds_upsertV2 users i e nm av h

/-- Witness for C2 at a concrete input. -/
theorem c2_first_resolution_creates_user_record_witness :
    checkUserRole1
      (some { id := "u1", email := some "u1@campus.edu", nameMeta := none,
              avatarMeta := none, appMetaRole := none })
      (some "u1") [] .noFault false .noFault
      = (false,
         [{ id := "u1", email := "u1@campus.edu", name := some "u1",
            password := none, avatar := none, role := Role.USER }]) := by
  have h := c2_first_resolution_creates_user_record
    { id := "u1", email := some "u1@campus.edu", nameMeta := none,
      avatarMeta := none, appMetaRole := none }
    "u1" "u1@campus.edu" [] rfl (by decide) rfl
  have hname : resolveName none "u1@campus.edu" = "u1" := by decide
  simpa [hname] using h.1

/-- C7: role resolution is idempotent in its side effect — the record
creation is an upsert keyed on id, so any sequence of `checkUserRole`
calls (either variant, any faults) preserves the at-most-one-record-per-id
invariant, and a single call inserts at most one record. -/
theorem c7_role_resolution_upsert_idempotent
    (calls : List RoleCall) (users : List UserRec) (h : uniqueIds users) :
    uniqueIds (calls.foldl (fun us c => stepRoleCall c us) users)
    ∧ ∀ c : RoleCall, (stepRoleCall c users).length ≤ users.length + 1 := by
  constructor
  · induction calls generalizing users with
    | nil => simpa using h
    | cons c cs ih =>
      simp only [List.foldl_cons]
      exact ih (stepRoleCall c users) (uniqueIds_stepRoleCall c users h)
  · intro c
    cases c with
    | v1 su uid f1 uf f2 =>
      rcases checkUserRole1_users_cases su uid users f1 uf f2 with
        heq | ⟨i, e, nm, heq⟩ <;> rw [stepRoleCall, heq]
      · simp
      · exact upsertV1_length users i e nm
    | v2 su uid f1 uf f2 =>
      rcases checkUserRole2_users_cases su uid users f1 uf f2 with
        heq | ⟨i, e, nm, av, heq⟩ <;> rw [stepRoleCall, heq]
      · simp
      · exact upsertV2_length users i e nm av

/-- Witness for C7: two identical resolution calls for a fresh subject id
starting from an empty table keep ids unique, and one call adds at most one
record. -/
theorem c7_role_resolution_upsert_idempotent_witness :
    uniqueIds (List.foldl (fun us c => stepRoleCall c us) []
      [RoleCall.v1
        (some { id := "u1", email := some "u1@campus.edu", nameMeta := none,
                avatarMeta := none, appMetaRole := none })
        (some "u1") .noFault false .noFault,
       RoleCall.v1
        (some { id := "u1", email := some "u1@campus.edu", nameMeta := none,
                avatarMeta := none, appMetaRole := none })
        (some "u1") .noFault false .noFault])
    ∧ (stepRoleCall
        (RoleCall.v1
          (some { id := "u1", email := some "u1@campus.edu", nameMeta := none,
                  avatarMeta := none, appMetaRole := none })
          (some "u1") .noFault false .noFault) []).length
        ≤ ([] : List UserRec).length + 1 :=
  ⟨(c7_role_resolution_upsert_idempotent
      [RoleCall.v1
        (some { id := "u1", email := some "u1@campus.edu", nameMeta := none,
                avatarMeta := none, appMetaRole := none })
        (some "u1") .noFault false .noFault,
       RoleCall.v1
        (some { id := "u1", email := some "u1@campus.edu", nameMeta := none,
                avatarMeta := none, appMetaRole := none })
        (some "u1") .noFault false .noFault] [] (by decide)).1,
   (c7_role_resolution_upsert_idempotent [] [] (by decide)).2
     (RoleCall.v1
       (some { id := "u1", email := some "u1@campus.edu", nameMeta := none,
               avatarMeta := none, appMetaRole := none })
       (some "u1") .noFault false .noFault)⟩

/-- C4 counterexample: a request whose bearer token is present but invalid
(or expired — `jwt.verify` throws either way) is rejected with status 403,
not 401 as the claim states. -/
theorem c4_counterexample :
    (authenticateToken (fun _ => none) (some "Bearer forged")).status = some 403
    ∧ (403 : Nat) ≠ 401 := by
  exact ⟨rfl, by decide⟩

/-- C4 amended: a request with a missing (or empty) bearer token is
rejected with 401; a request whose token is present but fails
verification (invalid or expired) is rejected with 403; a request with a
valid token passes authentication carrying the decoded payload. The
middleware performs no store operation in any branch (its embedding does
not touch the DB). -/
theorem c4_authenticate_amended (verify : String → Option JwtPayload)
    (header : Option String) :
    (header = none →
       authenticateToken verify header = .noToken
       ∧ (authenticateToken verify header).status = some 401)
    ∧ (∀ h, header = some h → tokenFromHeader h = none →
       authenticateToken verify header = .noToken
       ∧ (authenticateToken verify header).status = some 401)
    ∧ (∀ h t, header = some h → tokenFromHeader h = some t →
       (verify t = none →
          authenticateToken verify header = .invalidToken
          ∧ (authenticateToken verify header).status = some 403)
       ∧ (∀ p, verify t = some p →
          authenticateToken verify header = .authed p)) := by
  refine ⟨?_, ?_, ?_⟩
  · intro hh
    subst hh
    exact ⟨rfl, rfl⟩
  · intro h hh ht
    subst hh
    constructor <;> simp [authenticateToken, ht, AuthOutcome.status]
  · intro h t hh ht
    subst hh
    constructor
    · intro hv
      constructor <;> simp [authenticateToken, ht, hv, AuthOutcome.status]
    · intro p hv
      simp [authenticateToken, ht, hv]

/-- Witness for the amended C4: a concrete valid token
authenticates and carries its decoded payload. -/
theorem c4_authenticate_amended_witness :
    authenticateToken
      (fun t => if t = "tok" then some { id := "u1", role := none } else none)
      (some "Bearer tok")
      = .authed { id := "u1", role := none } :=
  ((c4_authenticate_amended
      (fun t => if t = "tok" then some { id := "u1", role := none } else none)
      (some "Bearer tok")).2.2 "Bearer tok" "tok" rfl (by decide)).2
    { id := "u1", role := none } (by decide)

/-- C5: a join on a non-APPROVED event fails without creating an edge; a
second join right after a successful one fails as already-joined (the
HTTP conflict condition, status 400 with the already-joined error) and
leaves the store unchanged; a leave with no edge fails as not-found (404)
and deletes nothing. -/
theorem c5_join_leave_guards (db : DB) (uid eid : String) :
    (∀ ev, findEvent db.events eid = some ev →
       ev.status ≠ EventStatus.APPROVED →
       joinRoute db uid eid = (.notApproved, db)
       ∧ JoinResult.notApproved.status = 400)
    ∧ ((joinRoute db uid eid).1 = .joined →
       joinRoute (joinRoute db uid eid).2 uid eid
         = (.alreadyJoined, (joinRoute db uid eid).2)
       ∧ JoinResult.alreadyJoined.status = 400)
    ∧ (findEventUser db.eventUsers eid uid = none →
       leaveRoute db uid eid = (.notJoined, db)
       ∧ LeaveResult.notJoined.status = 404) := by
  refine ⟨?_, ?_, ?_⟩
  · intro ev hev hst
    exact ⟨by simp [joinRoute, hev, hst], rfl⟩
  · intro hj
    cases hev : findEvent db.events eid with
    | none => simp [joinRoute, hev] at hj
    | some ev =>
      by_cases hst : ev.status = EventStatus.APPROVED
      · cases hedge : findEventUser db.eventUsers eid uid with
        | some j => simp [joinRoute, hev, hst, hedge] at hj
        | none =>
          have hrun : joinRoute db uid eid
              = (.joined,
                 { db with eventUsers :=
                     { eventId := eid, userId := uid, status := "attending" }
                       :: db.eventUsers }) := by
            simp [joinRoute, hev, hst, hedge]
          rw [hrun]
          refine ⟨?_, rfl⟩
          have hedge2 : findEventUser
              ({ eventId := eid, userId := uid, status := "attending" }
                :: db.eventUsers) eid uid
              = some { eventId := eid, userId := uid, status := "attending" } := by
            simp [findEventUser, List.find?_cons_of_pos]
          simp [joinRoute, hev, hst, hedge2]
      · simp [joinRoute, hev, hst] at hj
  · intro h
    exact ⟨by simp [leaveRoute, h], rfl⟩

/-- Witness for C5: on a store holding one APPROVED event, join then join
again conflicts, and a leave without a prior join is not-found. -/
theorem c5_join_leave_guards_witness :
    ((joinRoute
       { users := [], eventUsers := [], notifications := [],
         events := [{ id := "e1", title := "T", description := "d",
                      content := none, date := 0, location := "L",
                      image := none, userId := "u1",
                      status := EventStatus.APPROVED, clubId := none }] }
       "u2" "e1").1 = .joined →
     joinRoute (joinRoute
       { users := [], eventUsers := [], notifications := [],
         events := [{ id := "e1", title := "T", description := "d",
                      content := none, date := 0, location := "L",
                      image := none, userId := "u1",
                      status := EventStatus.APPROVED, clubId := none }] }
       "u2" "e1").2 "u2" "e1"
       = (.alreadyJoined, (joinRoute
           { users := [], eventUsers := [], notifications := [],
             events := [{ id := "e1", title := "T", description := "d",
                          content := none, date := 0, location := "L",
                          image := none, userId := "u1",
                          status := EventStatus.APPROVED, clubId := none }] }
           "u2" "e1").2)
       ∧ JoinResult.alreadyJoined.status = 400)
    ∧ (joinRoute
        { users := [], eventUsers := [], notifications := [],
          events := [{ id := "e1", title := "T", description := "d",
                       content := none, date := 0, location := "L",
                       image := none, userId := "u1",
                       status := EventStatus.APPROVED, clubId := none }] }
        "u2" "e1").1 = .joined :=
  ⟨(c5_join_leave_guards
      { users := [], eventUsers := [], notifications := [],
        events := [{ id := "e1", title := "T", description := "d",
                     content := none, date := 0, location := "L",
                     image := none, userId := "u1",
                     status := EventStatus.APPROVED, clubId := none }] }
      "u2" "e1").2.1,
   by decide⟩

/-- C6: for an existing event, a requester who is neither the creator nor
role-ADMIN gets Forbidden (403) from both update and delete, with the
store unchanged; the creator, or an ADMIN-role requester regardless of
ownership, succeeds. -/
theorem c6_ownership_admin_override (db : DB) (actor : JwtPayload)
    (eid : String) (upd : EventUpdate) (ev : EventRec)
    (hfind : findEvent db.events eid = some ev) :
    (actor.role ≠ some "ADMIN" → ev.userId ≠ actor.id →
       updateEventRoute db actor eid upd = (.forbidden, db)
       ∧ deleteEventRoute db actor eid = (.forbidden, db)
       ∧ UpdateEventResult.forbidden.status = 403
       ∧ DeleteEventResult.forbidden.status = 403)
    ∧ (ev.userId = actor.id ∨ actor.role = some "ADMIN" →
       (updateEventRoute db actor eid upd).1 = .ok (applyEventUpdate ev upd)
       ∧ (deleteEventRoute db actor eid).1 = .deleted) := by
  constructor
  · intro hrole hown
    have hc : ev.userId ≠ actor.id ∧ actor.role ≠ some "ADMIN" := ⟨hown, hrole⟩
    refine ⟨?_, ?_, rfl, rfl⟩
    · simp only [updateEventRoute, hfind]
      rw [if_pos hc]
    · simp only [deleteEventRoute, hfind]
      rw [if_pos hc]
  · intro hauth
    have hc : ¬ (ev.userId ≠ actor.id ∧ actor.role ≠ some "ADMIN") := by
      rcases hauth with h | h
      · exact fun hcon => hcon.1 h
      · exact fun hcon => hcon.2 h
    constructor
    · simp only [updateEventRoute, hfind]
      rw [if_neg hc]
    · simp only [deleteEventRoute, hfind]
      rw [if_neg hc]

/-- Witness for C6: a non-admin stranger is forbidden on a concrete event,
and the creator succeeds on the same event. -/
theorem c6_ownership_admin_override_witness :
    (updateEventRoute
      { users := [], eventUsers := [], notifications := [],
        events := [{ id := "e1", title := "T", description := "d",
                     content := none, date := 0, location := "L",
                     image := none, userId := "u1",
                     status := EventStatus.PENDING, clubId := none }] }
      { id := "u2", role := some "USER" } "e1"
      { title := none, description := none, content := none, date := none,
        location := none, image := none }
      = (.forbidden,
         { users := [], eventUsers := [], notifications := [],
           events := [{ id := "e1", title := "T", description := "d",
                        content := none, date := 0, location := "L",
                        image := none, userId := "u1",
                        status := EventStatus.PENDING, clubId := none }] }))
    ∧ (deleteEventRoute
        { users := [], eventUsers := [], notifications := [],
          events := [{ id := "e1", title := "T", description := "d",
                       content := none, date := 0, location := "L",
                       image := none, userId := "u1",
                       status := EventStatus.PENDING, clubId := none }] }
        { id := "u1", role := some "USER" } "e1").1 = .deleted :=
  ⟨((c6_ownership_admin_override
      { users := [], eventUsers := [], notifications := [],
        events := [{ id := "e1", title := "T", description := "d",
                     content := none, date := 0, location := "L",
                     image := none, userId := "u1",
                     status := EventStatus.PENDING, clubId := none }] }
      { id := "u2", role := some "USER" } "e1"
      { title := none, description := none, content := none, date := none,
        location := none, image := none }
      { id := "e1", title := "T", description := "d",
        content := none, date := 0, location := "L",
        image := none, userId := "u1",
        status := EventStatus.PENDING, clubId := none }
      (by decide)).1 (by decide) (by decide)).1,
   ((c6_ownership_admin_override
      { users := [], eventUsers := [], notifications := [],
        events := [{ id := "e1", title := "T", description := "d",
                     content := none, date := 0, location := "L",
                     image := none, userId := "u1",
                     status := EventStatus.PENDING, clubId := none }] }
      { id := "u1", role := some "USER" } "e1"
      { title := none, description := none, content := none, date := none,
        location := none, image := none }
      { id := "e1", title := "T", description := "d",
        content := none, date := 0, location := "L",
        image := none, userId := "u1",
        status := EventStatus.PENDING, clubId := none }
      (by decide)).2 (Or.inl (by decide))).2⟩

/-- C8: when the STORED role of the requester is ADMIN, approve sets the
status of the event to APPROVED and prepends exactly one Notification for
the creator of type success; reject sets REJECTED with exactly one
Notification of type error; a requester whose stored role is not ADMIN is
rejected by the middleware with the store untouched. -/
theorem c8_moderation_effects (db : DB) (actor : JwtPayload) (eid : String) :
    (dbIsAdmin db actor.id = false →
       approveRoute db actor eid = (.forbidden, db)
       ∧ rejectRoute db actor eid = (.forbidden, db)
       ∧ ModerateResult.forbidden.status = 403)
    ∧ (dbIsAdmin db actor.id = true →
       ∀ ev, findEvent db.events eid = some ev →
         approveRoute db actor eid
           = (.ok { ev with status := EventStatus.APPROVED },
              { db with
                events := db.events.map (fun e =>
                  if e.id == eid then { ev with status := EventStatus.APPROVED }
                  else e)
                notifications :=
                  { userId := ev.userId
                    message := "Your event \"" ++ ev.title
                      ++ "\" has been approved."
                    type := "success"
                    read := false } :: db.notifications })
         ∧ rejectRoute db actor eid
           = (.ok { ev with status := EventStatus.REJECTED },
              { db with
                events := db.events.map (fun e =>
                  if e.id == eid then { ev with status := EventStatus.REJECTED }
                  else e)
                notifications :=
                  { userId := ev.userId
                    message := "Your event \"" ++ ev.title
                      ++ "\" has been rejected."
                    type := "error"
                    read := false } :: db.notifications })) := by
  constructor
  · intro h
    refine ⟨?_, ?_, rfl⟩ <;> simp [approveRoute, rejectRoute, h]
  · intro h ev hev
    constructor <;> simp [approveRoute, rejectRoute, h, hev]

/-- Witness for C8: a concrete admin approval flips a PENDING event to
APPROVED and emits one success Notification to its creator. -/
theorem c8_moderation_effects_witness :
    approveRoute
      { users := [{ id := "a1", email := "a@campus.edu", name := none,
                    password := none, avatar := none, role := Role.ADMIN }],
        events := [{ id := "e1", title := "Fest", description := "d",
                     content := none, date := 0, location := "L",
                     image := none, userId := "u1",
                     status := EventStatus.PENDING, clubId := none }],
        eventUsers := [], notifications := [] }
      { id := "a1", role := none } "e1"
      = (.ok { id := "e1", title := "Fest", description := "d",
               content := none, date := 0, location := "L",
               image := none, userId := "u1",
               status := EventStatus.APPROVED, clubId := none },
         { users := [{ id := "a1", email := "a@campus.edu", name := none,
                       password := none, avatar := none, role := Role.ADMIN }],
           events := [{ id := "e1", title := "Fest", description := "d",
                        content := none, date := 0, location := "L",
                        image := none, userId := "u1",
                        status := EventStatus.APPROVED, clubId := none }],
           eventUsers := [],
           notifications := [{ userId := "u1",
                               message := "Your event \"Fest\" has been approved.",
                               type := "success", read := false }] }) := by
  have h := ((c8_moderation_effects
    { users := [{ id := "a1", email := "a@campus.edu", name := none,
                  password := none, avatar := none, role := Role.ADMIN }],
      events := [{ id := "e1", title := "Fest", description := "d",
                   content := none, date := 0, location := "L",
                   image := none, userId := "u1",
                   status := EventStatus.PENDING, clubId := none }],
      eventUsers := [], notifications := [] }
    { id := "a1", role := none } "e1").2 (by decide)
    { id := "e1", title := "Fest", description := "d",
      content := none, date := 0, location := "L",
      image := none, userId := "u1",
      status := EventStatus.PENDING, clubId := none } (by decide)).1
  simpa using h

/-- C3 counterexample: the approve endpoint performs the transition
REJECTED→APPROVED, which the claim forbids: on a store whose only event is
REJECTED, an admin approve call leaves it APPROVED. -/
theorem c3_counterexample :
    ({ users := [{ id := "a1", email := "a@campus.edu", name := none,
                   password := none, avatar := none, role := Role.ADMIN }],
       events := [{ id := "e1", title := "T", description := "d",
                    content := none, date := 0, location := "L",
                    image := none, userId := "u1",
                    status := EventStatus.REJECTED, clubId := none }],
       eventUsers := [], notifications := []} : DB).events.map
         (fun e => e.status) = [EventStatus.REJECTED]
    ∧ ((approveRoute
        { users := [{ id := "a1", email := "a@campus.edu", name := none,
                      password := none, avatar := none, role := Role.ADMIN }],
          events := [{ id := "e1", title := "T", description := "d",
                       content := none, date := 0, location := "L",
                       image := none, userId := "u1",
                       status := EventStatus.REJECTED, clubId := none }],
          eventUsers := [], notifications := [] }
        { id := "a1", role := none } "e1").2.events.map (fun e => e.status))
      = [EventStatus.APPROVED] := by
  exact ⟨rfl, rfl⟩

/-- C3 amended: the approve and reject endpoints guard only on the admin
check and set the status unconditionally — approve always ends in APPROVED
and reject always in REJECTED, from ANY prior status (so
REJECTED→APPROVED and APPROVED→REJECTED are performed); no PENDING-only
state-machine guard exists in the code. -/
theorem c3_status_transitions_amended (db : DB) (actor : JwtPayload)
    (eid : String) (ev : EventRec) (hadm : dbIsAdmin db actor.id = true)
    (hev : findEvent db.events eid = some ev) :
    (approveRoute db actor eid).1
      = .ok { ev with status := EventStatus.APPROVED }
    ∧ (rejectRoute db actor eid).1
      = .ok { ev with status := EventStatus.REJECTED } := by
  constructor <;> simp [approveRoute, rejectRoute, hadm, hev]

/-- Witness for the amended C3: approving a CANCELLED event yields
APPROVED. -/
theorem c3_status_transitions_amended_witness :
    (approveRoute
      { users := [{ id := "a1", email := "a@campus.edu", name := none,
                    password := none, avatar := none, role := Role.ADMIN }],
        events := [{ id := "e1", title := "T", description := "d",
                     content := none, date := 0, location := "L",
                     image := none, userId := "u1",
                     status := EventStatus.CANCELLED, clubId := none }],
        eventUsers := [], notifications := [] }
      { id := "a1", role := none } "e1").1
      = .ok { id := "e1", title := "T", description := "d",
              content := none, date := 0, location := "L",
              image := none, userId := "u1",
              status := EventStatus.APPROVED, clubId := none } :=
  (c3_status_transitions_amended
    { users := [{ id := "a1", email := "a@campus.edu", name := none,
                  password := none, avatar := none, role := Role.ADMIN }],
      events := [{ id := "e1", title := "T", description := "d",
                   content := none, date := 0, location := "L",
                   image := none, userId := "u1",
                   status := EventStatus.CANCELLED, clubId := none }],
      eventUsers := [], notifications := [] }
    { id := "a1", role := none } "e1"
    { id := "e1", title := "T", description := "d",
      content := none, date := 0, location := "L",
      image := none, userId := "u1",
      status := EventStatus.CANCELLED, clubId := none }
    (by decide) (by decide)).1

/-- C9 counterexample: `PUT /api/users/:id` grants ADMIN privilege from the
DECODED TOKEN role claim, not the stored DirectoryRecord: an actor whose
stored role is USER but whose token claims ADMIN successfully changes
the role of another user to ADMIN. -/
theorem c9_counterexample :
    (findUser [{ id := "a", email := "a@campus.edu", name := none,
                 password := none, avatar := none, role := Role.USER },
               { id := "b", email := "b@campus.edu", name := none,
                 password := none, avatar := none, role := Role.USER }] "a").map
      (fun u => u.role) = some Role.USER
    ∧ (updateUserRoute
        { users := [{ id := "a", email := "a@campus.edu", name := none,
                      password := none, avatar := none, role := Role.USER },
                    { id := "b", email := "b@campus.edu", name := none,
                      password := none, avatar := none, role := Role.USER }],
          events := [], eventUsers := [], notifications := [] }
        { id := "a", role := some "ADMIN" } "b" none (some Role.ADMIN)).1
      = .ok { id := "b", email := "b@campus.edu", name := none,
              password := none, avatar := none, role := Role.ADMIN } := by
  exact ⟨rfl, by decide⟩

/-- C9 amended: the stored DirectoryRecord is the privilege source only for
the `isAdmin`-guarded endpoints — approve (and its peers) are forbidden
exactly when the stored role is not ADMIN, whatever the token
claims; but the role-update and ownership-override checks read
`req.user.role` from the decoded token, so a token ADMIN claim lets an
actor mutate roles regardless of any stored record, and the second client
variant can additionally grant admin from `app_metadata`
(`c1_counterexample`). The DirectoryRecord is therefore not the sole
privilege channel. -/
theorem c9_privilege_channels_amended (db : DB) (actor : JwtPayload)
    (eid uid : String) (nameBody : Option String) (r : Role) :
    ((approveRoute db actor eid).1 = .forbidden
       ↔ dbIsAdmin db actor.id = false)
    ∧ (actor.role = some "ADMIN" →
       ∀ u, findUser db.users uid = some u →
         (updateUserRoute db actor uid nameBody (some r)).1
           = .ok { u with
               name := match nameBody with
                 | some n => some n
                 | none => u.name
               role := r }) := by
  constructor
  · cases hadm : dbIsAdmin db actor.id with
    | true =>
      simp only [approveRoute, hadm]
      cases hev : findEvent db.events eid with
      | none => simp [hev]
      | some ev => simp [hev]
    | false => simp [approveRoute, hadm]
  · intro hrole u hu
    have h1 : ¬ ((some r).isSome ∧ actor.role ≠ some "ADMIN") := by
      simp [hrole]
    have h2 : ¬ (uid ≠ actor.id ∧ actor.role ≠ some "ADMIN") := by
      simp [hrole]
    simp only [updateUserRoute]
    rw [if_neg h1, if_neg h2]
    simp [hu]

/-- Witness for the amended C9: with an empty User table no stored
record exists, so approve is forbidden even for a token that claims ADMIN;
and the same token-ADMIN actor may still set a stored role. -/
theorem c9_privilege_channels_amended_witness :
    ((approveRoute
        { users := [], events := [], eventUsers := [], notifications := [] }
        { id := "a", role := some "ADMIN" } "e1").1 = .forbidden
      ↔ dbIsAdmin
          { users := [], events := [], eventUsers := [], notifications := [] }
          "a" = false)
    ∧ (updateUserRoute
        { users := [{ id := "b", email := "b@campus.edu", name := none,
                      password := none, avatar := none, role := Role.USER }],
          events := [], eventUsers := [], notifications := [] }
        { id := "a", role := some "ADMIN" } "b" none (some Role.MODERATOR)).1
      = .ok { id := "b", email := "b@campus.edu", name := none,
              password := none, avatar := none, role := Role.MODERATOR } :=
  ⟨(c9_privilege_channels_amended
      { users := [], events := [], eventUsers := [], notifications := [] }
      { id := "a", role := some "ADMIN" } "e1" "x" none Role.USER).1,
   (c9_privilege_channels_amended
      { users := [{ id := "b", email := "b@campus.edu", name := none,
                    password := none, avatar := none, role := Role.USER }],
        events := [], eventUsers := [], notifications := [] }
      { id := "a", role := some "ADMIN" } "e" "b" none Role.MODERATOR).2
     rfl
     { id := "b", email := "b@campus.edu", name := none,
       password := none, avatar := none, role := Role.USER }
     (by decide)⟩

/-- C10: a successful registration responds 201 with every field of the
created user except the password — no "password" key appears in the body —
while the stored record keeps the submitted password verbatim. -/
theorem c10_register_excludes_password (db : DB)
    (nm email pw newId : String)
    (habs : findUserByEmail db.users email = none) :
    registerRoute db nm email pw newId
      = (.created (withoutPassword (userFields
            { id := newId, email := email, name := some nm,
              password := some pw, avatar := none, role := Role.USER })),
         { db with users :=
             { id := newId, email := email, name := some nm,
               password := some pw, avatar := none, role := Role.USER }
               :: db.users })
    ∧ (registerRoute db nm email pw newId).1.status = 201
    ∧ ((registerRoute db nm email pw newId).2.users.head?.map
        (fun u => u.password)) = some (some pw)
    ∧ (∀ v, ("password", v) ∉ withoutPassword (userFields
            { id := newId, email := email, name := some nm,
              password := some pw, avatar := none, role := Role.USER })) := by
  have hrun : registerRoute db nm email pw newId
      = (.created (withoutPassword (userFields
            { id := newId, email := email, name := some nm,
              password := some pw, avatar := none, role := Role.USER })),
         { db with users :=
             { id := newId, email := email, name := some nm,
               password := some pw, avatar := none, role := Role.USER }
               :: db.users }) := by
    simp [registerRoute, habs]
  refine ⟨hrun, ?_, ?_, ?_⟩
  · rw [hrun]
    rfl
  · rw [hrun]
    rfl
  · intro v hv
    simp [withoutPassword, userFields] at hv

/-- Witness for C10 on an empty store. -/
theorem c10_register_excludes_password_witness :
    registerRoute
      { users := [], events := [], eventUsers := [], notifications := [] }
      "Neo" "neo@campus.edu" "s3cret" "cuid1"
      = (.created [("id", some "cuid1"), ("email", some "neo@campus.edu"),
                   ("name", some "Neo"), ("avatar", none),
                   ("role", some "USER")],
         { users := [{ id := "cuid1", email := "neo@campus.edu",
                       name := some "Neo", password := some "s3cret",
                       avatar := none, role := Role.USER }],
           events := [], eventUsers := [], notifications := [] }) := by
  have h := (c10_register_excludes_password
    { users := [], events := [], eventUsers := [], notifications := [] }
    "Neo" "neo@campus.edu" "s3cret" "cuid1" (by decide)).1
  simpa [withoutPassword, userFields] using h

end Portal
